import Mathlib

/-!
Verification development for the tech-debt-analyzer scan service
(`tech-debt-service`: `agent.py`, `app.py`, `llm_interface.py`, `utils.py`,
`rag_processor.py`, `config.py`).

The Python sources are shallowly embedded as executable Lean functions.
External effects (git clone, vector store, LLM backends, the filesystem,
wall-clock time) are passed in as explicit oracle parameters; the
remaining logic (status state machine, per-file failure containment,
retry loop, response parsing, finding validation, cleanup/finalization)
is translated directly from the source.

Character-class caveat: Python's `re` module `\s` and `str.strip()` use
the full Unicode whitespace set; this embedding models the ASCII subset
(space, tab, newline, carriage return, vertical tab, form feed), which
coincides with Python on ASCII inputs.
-/

/-! ## JSON values (the result of Python `json.loads`)

Numbers are kept as their source token (the scan logic never computes
with them), which sidesteps floating-point while preserving shape. -/

inductive Json where
  | null : Json
  | bool (b : Bool) : Json
  | num (tok : String) : Json
  | str (s : String) : Json
  | arr (elems : List Json) : Json
  | obj (fields : List (String × Json)) : Json

/-- `k in d` on a Python dict. -/
def hasKey (fields : List (String × Json)) (k : String) : Bool :=
  fields.any fun kv => kv.1 == k

/-- `d.get(k)` on a Python dict (fields are kept duplicate-free by the
parser and by `setKey`, so first match is the value). -/
def lookupKey (fields : List (String × Json)) (k : String) : Option Json :=
  match fields with
  | [] => none
  | (k1, v) :: rest => if k1 == k then some v else lookupKey rest k

/-- `d[k] = v` on a Python dict: replaces the value at the key's first
occurrence, keeping its position, or appends the key at the end. -/
def setKey (fields : List (String × Json)) (k : String) (v : Json) :
    List (String × Json) :=
  match fields with
  | [] => [(k, v)]
  | (k1, v1) :: rest =>
    if k1 == k then (k1, v) :: rest else (k1, v1) :: setKey rest k v

/-- Remove the first occurrence of a key. -/
def removeKey (fields : List (String × Json)) (k : String) :
    List (String × Json) :=
  match fields with
  | [] => []
  | (k1, v1) :: rest =>
    if k1 == k then rest else (k1, v1) :: removeKey rest k

/-- Python dict construction order for duplicate keys: the first
occurrence keeps its position, the last occurrence supplies the value. -/
def objCombine (k : String) (v : Json) (tailFields : List (String × Json)) :
    List (String × Json) :=
  match lookupKey tailFields k with
  | some v2 => (k, v2) :: removeKey tailFields k
  | none => (k, v) :: tailFields

/-! ## A strict JSON reader modeling Python `json.loads` -/

def isJsonWs (c : Char) : Bool :=
  c = ' ' || c = '\t' || c = '\n' || c = '\r'

def skipWs (s : List Char) : List Char := s.dropWhile isJsonWs

def lbraceChar : Char := Char.ofNat 123
def rbraceChar : Char := Char.ofNat 125
def backtickChar : Char := Char.ofNat 96

def isDigitChar (c : Char) : Bool := 48 ≤ c.toNat && c.toNat ≤ 57

def hexVal (c : Char) : Option Nat :=
  if 48 ≤ c.toNat && c.toNat ≤ 57 then some (c.toNat - 48)
  else if 97 ≤ c.toNat && c.toNat ≤ 102 then some (c.toNat - 87)
  else if 65 ≤ c.toNat && c.toNat ≤ 70 then some (c.toNat - 55)
  else none

/-- Match an exact literal; returns the remainder on success. -/
def dropLit : List Char → List Char → Option (List Char)
  | [], s => some s
  | _ :: _, [] => none
  | a :: ps, b :: ss => if a = b then dropLit ps ss else none

/-- Body of a JSON string after the opening quote, with escapes.
Strict mode: unescaped control characters below 0x20 are rejected. -/
def parseStringBody : Nat → List Char → Option (List Char × List Char)
  | 0, _ => none
  | _ + 1, [] => none
  | fuel + 1, c :: rest =>
    if c = '"' then some ([], rest)
    else if c = '\\' then
      match rest with
      | [] => none
      | e :: rest2 =>
        if e = '"' then
          (parseStringBody fuel rest2).map fun p => ('"' :: p.1, p.2)
        else if e = '\\' then
          (parseStringBody fuel rest2).map fun p => ('\\' :: p.1, p.2)
        else if e = '/' then
          (parseStringBody fuel rest2).map fun p => ('/' :: p.1, p.2)
        else if e = 'b' then
          (parseStringBody fuel rest2).map fun p => (Char.ofNat 8 :: p.1, p.2)
        else if e = 'f' then
          (parseStringBody fuel rest2).map fun p => (Char.ofNat 12 :: p.1, p.2)
        else if e = 'n' then
          (parseStringBody fuel rest2).map fun p => ('\n' :: p.1, p.2)
        else if e = 'r' then
          (parseStringBody fuel rest2).map fun p => ('\r' :: p.1, p.2)
        else if e = 't' then
          (parseStringBody fuel rest2).map fun p => ('\t' :: p.1, p.2)
        else if e = 'u' then
          match rest2 with
          | h1 :: h2 :: h3 :: h4 :: rest3 =>
            match hexVal h1, hexVal h2, hexVal h3, hexVal h4 with
            | some a, some b, some c2, some d =>
              (parseStringBody fuel rest3).map fun p =>
                (Char.ofNat (((a * 16 + b) * 16 + c2) * 16 + d) :: p.1, p.2)
            | _, _, _, _ => none
          | _ => none
        else none
    else if c.toNat < 32 then none
    else (parseStringBody fuel rest).map fun p => (c :: p.1, p.2)

def takeDigits (s : List Char) : List Char × List Char :=
  (s.takeWhile isDigitChar, s.dropWhile isDigitChar)

/-- Optional exponent part of a JSON number token. -/
def parseExpPart (acc : List Char) (s : List Char) :
    Option (List Char × List Char) :=
  match s with
  | [] => some (acc, s)
  | e :: rest =>
    if e = 'e' || e = 'E' then
      let (sign, r1) :=
        match rest with
        | c :: r => if c = '+' || c = '-' then ([c], r) else (([] : List Char), rest)
        | [] => ([], rest)
      match takeDigits r1 with
      | ([], _) => none
      | (ds, r2) => some (acc ++ e :: (sign ++ ds), r2)
    else some (acc, s)

/-- Optional fraction part (then exponent) of a JSON number token. -/
def parseFracPart (acc : List Char) (s : List Char) :
    Option (List Char × List Char) :=
  match s with
  | [] => parseExpPart acc s
  | c :: rest =>
    if c = '.' then
      match takeDigits rest with
      | ([], _) => none
      | (ds, r) => parseExpPart (acc ++ c :: ds) r
    else parseExpPart acc s

/-- JSON number token: `-? int frac? exp?` with the strict integer rule
(`0` or a nonzero leading digit, no leading `+`/`.`). -/
def parseNumberToken (s : List Char) : Option (List Char × List Char) :=
  let (neg, s1) :=
    match s with
    | c :: rest => if c = '-' then ([c], rest) else (([] : List Char), s)
    | [] => ([], s)
  match s1 with
  | [] => none
  | c :: rest =>
    if c = '0' then parseFracPart (neg ++ [c]) rest
    else if isDigitChar c then
      let (ds, r) := takeDigits rest
      parseFracPart (neg ++ c :: ds) r
    else none

mutual

/-- One JSON value (leading whitespace allowed), as `json.loads` accepts:
objects, arrays, strings, numbers, `true`/`false`/`null`, and Python's
default `NaN`/`Infinity`/`-Infinity` extensions. -/
def parseValue : Nat → List Char → Option (Json × List Char)
  | 0, _ => none
  | fuel + 1, s =>
    match skipWs s with
    | [] => none
    | c :: rest =>
      if c = lbraceChar then
        match skipWs rest with
        | c2 :: rest2 =>
          if c2 = rbraceChar then some (Json.obj [], rest2)
          else
            (parseObjItems fuel (skipWs rest)).map fun p => (Json.obj p.1, p.2)
        | [] => none
      else if c = '[' then
        match skipWs rest with
        | c2 :: rest2 =>
          if c2 = ']' then some (Json.arr [], rest2)
          else
            (parseArrItems fuel (skipWs rest)).map fun p => (Json.arr p.1, p.2)
        | [] => none
      else if c = '"' then
        (parseStringBody (fuel + 1) rest).map fun p =>
          (Json.str (String.mk p.1), p.2)
      else if c = 't' then
        (dropLit ['r', 'u', 'e'] rest).map fun r => (Json.bool true, r)
      else if c = 'f' then
        (dropLit ['a', 'l', 's', 'e'] rest).map fun r => (Json.bool false, r)
      else if c = 'n' then
        (dropLit ['u', 'l', 'l'] rest).map fun r => (Json.null, r)
      else if c = 'N' then
        (dropLit ['a', 'N'] rest).map fun r => (Json.num "NaN", r)
      else if c = 'I' then
        (dropLit ['n', 'f', 'i', 'n', 'i', 't', 'y'] rest).map fun r =>
          (Json.num "Infinity", r)
      else if c = '-' && (match rest with | 'I' :: _ => true | _ => false) then
        (dropLit ['I', 'n', 'f', 'i', 'n', 'i', 't', 'y'] rest).map fun r =>
          (Json.num "-Infinity", r)
      else
        (parseNumberToken (c :: rest)).map fun p =>
          (Json.num (String.mk p.1), p.2)

/-- Comma-separated array elements up to the closing bracket (strict:
no trailing comma). -/
def parseArrItems : Nat → List Char → Option (List Json × List Char)
  | 0, _ => none
  | fuel + 1, s =>
    match parseValue fuel s with
    | none => none
    | some (v, r) =>
      match skipWs r with
      | c :: r2 =>
        if c = ',' then
          (parseArrItems fuel r2).map fun p => (v :: p.1, p.2)
        else if c = ']' then some ([v], r2)
        else none
      | [] => none

/-- Comma-separated `"key": value` members up to the closing brace
(strict: names must be strings, no trailing comma). -/
def parseObjItems : Nat → List Char → Option (List (String × Json) × List Char)
  | 0, _ => none
  | fuel + 1, s =>
    match skipWs s with
    | c :: rest =>
      if c = '"' then
        match parseStringBody (fuel + 1) rest with
        | none => none
        | some (kcs, r1) =>
          match skipWs r1 with
          | c2 :: r2 =>
            if c2 = ':' then
              match parseValue fuel r2 with
              | none => none
              | some (v, r3) =>
                match skipWs r3 with
                | c4 :: r4 =>
                  if c4 = ',' then
                    (parseObjItems fuel r4).map fun p =>
                      (objCombine (String.mk kcs) v p.1, p.2)
                  else if c4 = rbraceChar then
                    some ([(String.mk kcs, v)], r4)
                  else none
                | [] => none
            else none
          | [] => none
      else none
    | [] => none

end

/-- Python `json.loads`: one value, then only whitespace to the end
("Extra data" otherwise). Fuel `2 * length + 4` over-approximates the
recursion depth (each nesting level consumes at least one character). -/
def json_loads (s : List Char) : Option Json :=
  match parseValue (2 * s.length + 4) s with
  | some (v, rest) => if skipWs rest = [] then some v else none
  | none => none

example : json_loads "[]".data = some (Json.arr []) := rfl
example : json_loads "".data = none := rfl
example : json_loads " [1, 2] ".data
    = some (Json.arr [Json.num "1", Json.num "2"]) := rfl
example :
    json_loads "[\x7b\"a\": true\x7d]".data
      = some (Json.arr [Json.obj [("a", Json.bool true)]]) := rfl
example : json_loads "[1,]".data = none := rfl
example : json_loads "[1] extra".data = none := rfl
example : json_loads "\"a\\nb\"".data = some (Json.str "a\nb") := rfl
example : json_loads "-12.5e3".data = some (Json.num "-12.5e3") := rfl
example : json_loads "01".data = none := rfl

/-! ## Python text helpers used by `llm_interface.parse_llm_response_to_json` -/

/-- ASCII fragment of Python regex `\s` / `str.strip()` whitespace. -/
def isPyWs (c : Char) : Bool :=
  c = ' ' || c = '\t' || c = '\n' || c = '\r' ||
    c = Char.ofNat 11 || c = Char.ofNat 12

/-- Python `str.strip()`. -/
def pyStrip (s : List Char) : List Char :=
  ((s.dropWhile isPyWs).reverse.dropWhile isPyWs).reverse

def pyStripStr (s : String) : String := String.mk (pyStrip s.data)

/-- Does the text begin with a triple-backtick fence? -/
def startsWithTicks : List Char → Bool
  | a :: b :: c :: _ => a = backtickChar && b = backtickChar && c = backtickChar
  | _ => false

/-- Case-insensitive `json` tag right after the opening fence
(the `(json)?` group of the regex). -/
def startsWithJsonCI : List Char → Bool
  | a :: b :: c :: d :: _ =>
    a.toLower = 'j' && b.toLower = 's' && c.toLower = 'o' && d.toLower = 'n'
  | _ => false

/-- The lazy group `([\s\S]*?)` before `\s*` and the closing fence:
take the shortest content after which, skipping whitespace, a closing
triple backtick follows. `none` when no closing fence exists. -/
def grabContent : List Char → Option (List Char)
  | [] => none
  | c :: rest =>
    if startsWithTicks ((c :: rest).dropWhile isPyWs) then some []
    else (grabContent rest).map fun l => c :: l

/-- Remainder of the fence pattern after the opening backticks:
greedily consume an optional case-insensitive `json` tag, greedily skip
whitespace, then the lazy content group. -/
def fencedBody (s : List Char) : Option (List Char) :=
  let s1 := if startsWithJsonCI s then s.drop 4 else s
  let s2 := s1.dropWhile isPyWs
  grabContent s2

/-- `re.search` of the fenced-block pattern: earliest start position at
which the whole pattern matches wins; a fence with no closing fence is
skipped and the search continues at the next position. Returns the
captured group 2 (the inner content). -/
def searchFenced : List Char → Option (List Char)
  | [] => none
  | c :: rest =>
    if startsWithTicks (c :: rest) then
      match fencedBody ((c :: rest).drop 3) with
      | some content => some content
      | none => searchFenced rest
    else searchFenced rest

/-- Python `str.find`: index of the first occurrence of a character
(`none` models `-1`). -/
def findChar (s : List Char) (c : Char) : Option Nat :=
  match s with
  | [] => none
  | a :: rest => if a = c then some 0 else (findChar rest c).map (· + 1)

/-- `json.loads` applied to the suffix starting at index `i`, with the
`if not json_str` emptiness guard of the source. -/
def loadsFrom (s : List Char) (i : Nat) : Option Json :=
  let json_str := s.drop i
  if json_str = [] then none else json_loads json_str

/-- `llm_interface.parse_llm_response_to_json`: extract a candidate
string (fenced block first, else from the first brace or bracket to the
end), then strictly parse it. The source's final `else` branch of the
index comparison is unreachable and omitted. -/
def parse_llm_response_to_json (response_text : String) : Option Json :=
  if response_text = "" then none
  else
    match searchFenced response_text.data with
    | some content =>
      let json_str := pyStrip content
      if json_str = [] then none else json_loads json_str
    | none =>
      let start_brace := findChar response_text.data lbraceChar
      let start_bracket := findChar response_text.data '['
      match start_brace, start_bracket with
      | none, none => none
      | some b, none => loadsFrom response_text.data b
      | none, some k => loadsFrom response_text.data k
      | some b, some k =>
        if b < k then loadsFrom response_text.data b
        else loadsFrom response_text.data k

/-- `agent.analyze_code_file` lines 106-116: `None` propagates, a dict
is wrapped into a one-element list, a list is kept, anything else is
rejected (the file then contributes no findings). -/
def normalize_parsed : Option Json → Option (List Json)
  | none => none
  | some (Json.obj fields) => some [Json.obj fields]
  | some (Json.arr elems) => some elems
  | some _ => none

/-! Spec-side description of the parser (section 4.4 of the design):
written from the spec's words, to be compared with the embedding. -/

/-- The smaller of two optional indices, when present. -/
def minIdx : Option Nat → Option Nat → Option Nat
  | none, none => none
  | some a, none => some a
  | none, some b => some b
  | some a, some b => some (min a b)

/-- Spec 4.4 steps 1-2: candidate string selection — the fenced block's
inner content if a fenced block occurs, otherwise the substring from the
earlier non-negative index of the first brace or bracket to the end;
no candidate when neither occurs. -/
def specExtractCandidate (t : String) : Option (List Char) :=
  match searchFenced t.data with
  | some content => some (pyStrip content)
  | none =>
    match minIdx (findChar t.data lbraceChar) (findChar t.data '[') with
    | some i => some (t.data.drop i)
    | none => none

/-- Spec 4.4 steps 1-4 composed: candidate selection, strict parse,
then shape normalization (single object wrapped, non-list non-object
rejected). -/
def specResponseAlgorithm (t : String) : Option (List Json) :=
  match specExtractCandidate t with
  | none => none
  | some cand =>
    match json_loads cand with
    | some (Json.arr elems) => some elems
    | some (Json.obj fields) => some [Json.obj fields]
    | _ => none

example :
    parse_llm_response_to_json
        "Here you go:\n```json\n[\x7b\"line_number\": 1\x7d]\n```\nDone."
      = some (Json.arr [Json.obj [("line_number", Json.num "1")]]) := rfl
example :
    parse_llm_response_to_json
        "Sure! [ \x7b\"line_number\": 2, \"category\": \"Readability\"\x7d ]"
      = some (Json.arr [Json.obj
          [("line_number", Json.num "2"), ("category", Json.str "Readability")]]) := rfl
example : parse_llm_response_to_json "no json here" = none := rfl
example : parse_llm_response_to_json "tail \x7b\"a\": 1\x7d" =
    some (Json.obj [("a", Json.num "1")]) := rfl

lemma json_loads_nilInput : json_loads [] = none := rfl

lemma normalize_parsed_shape (o : Option Json) :
    normalize_parsed o =
      match o with
      | some (Json.arr elems) => some elems
      | some (Json.obj fields) => some [Json.obj fields]
      | _ => none := by
  cases o with
  | none => rfl
  | some v => cases v <;> rfl

lemma normalize_loadsFrom (s : List Char) (i : Nat) :
    normalize_parsed (loadsFrom s i) =
      match json_loads (s.drop i) with
      | some (Json.arr elems) => some elems
      | some (Json.obj fields) => some [Json.obj fields]
      | _ => none := by
  unfold loadsFrom
  by_cases h : s.drop i = []
  · rw [h]
    simp [json_loads_nilInput, normalize_parsed]
  · simp only [if_neg h]
    exact normalize_parsed_shape _

/-- C4 (confirmed): the response parser follows the spec's ordered,
first-match-wins algorithm — (1) a fenced block's inner content is the
candidate when one occurs; (2) otherwise the candidate runs from the
earlier non-negative index of the first brace or bracket to the end of
the text, and the parse fails when neither occurs; (3) the candidate is
strictly parsed with no lenient recovery; (4) a parsed single object is
wrapped into a one-element list and any other non-list value is
rejected. Stated as: the embedded parser composed with the caller's
shape normalization equals the algorithm as the spec words it. -/
theorem c4_response_algorithm (t : String) :
    normalize_parsed (parse_llm_response_to_json t) = specResponseAlgorithm t := by
  by_cases ht : t = ""
  · subst ht; rfl
  · unfold parse_llm_response_to_json specResponseAlgorithm specExtractCandidate
    simp only [if_neg ht]
    cases hf : searchFenced t.data with
    | some content =>
      dsimp only
      by_cases hempty : pyStrip content = []
      · rw [hempty]
        simp [json_loads_nilInput, normalize_parsed]
      · simp only [if_neg hempty]
        exact normalize_parsed_shape _
    | none =>
      dsimp only
      cases hb : findChar t.data lbraceChar with
      | none =>
        cases hk : findChar t.data '[' with
        | none => rfl
        | some k => simp [minIdx, normalize_loadsFrom]
      | some b =>
        cases hk : findChar t.data '[' with
        | none => simp [minIdx, normalize_loadsFrom]
        | some k =>
          by_cases hlt : b < k
          · have hmin : min b k = b := by omega
            simp [minIdx, hmin, if_pos hlt, normalize_loadsFrom]
          · have hmin : min b k = k := by omega
            simp [minIdx, hmin, if_neg hlt, normalize_loadsFrom]

/-! ## Finding validation (`agent.analyze_code_file` lines 118-138) -/

/-- Validation log entries (the `logging.warning` calls of the loop). -/
inductive VEv where
  | warnedBadCategory (finding : Json)
  | droppedMissingKeys (finding : Json)
  | skippedNonDict (item : Json)

/-- `required_keys` of the source. -/
def required_keys : List String :=
  ["line_number", "category", "description", "severity"]

/-- `finding.get('category') not in allowed_categories`, negated: a
non-string category value never equals an allowed string. -/
def categoryAllowed (fields : List (String × Json)) (allowed : List String) :
    Bool :=
  match lookupKey fields "category" with
  | some (Json.str c) => allowed.contains c
  | _ => false

/-- `[cat.strip() for cat in config.TECH_DEBT_CATEGORIES.split(',')]`. -/
def splitCats (s : String) : List String := (s.splitOn ",").map pyStripStr

/-- The per-finding validation loop: non-dict items are skipped; a dict
missing any required key is dropped with a warning; otherwise `file` is
set to the relative path and the finding is retained — an out-of-set
category only logs a warning. -/
def validateFindings (parsed : List Json) (relPath : String)
    (allowed : List String) : List Json × List VEv :=
  match parsed with
  | [] => ([], [])
  | f :: rest =>
    let (tailRes, tailEvs) := validateFindings rest relPath allowed
    match f with
    | Json.obj fields =>
      if required_keys.all (fun k => hasKey fields k) then
        let tagged := Json.obj (setKey fields "file" (Json.str relPath))
        if categoryAllowed fields allowed then
          (tagged :: tailRes, tailEvs)
        else
          (tagged :: tailRes, VEv.warnedBadCategory f :: tailEvs)
      else
        (tailRes, VEv.droppedMissingKeys f :: tailEvs)
    | other => (tailRes, VEv.skippedNonDict other :: tailEvs)

lemma lookupKey_setKey (fields : List (String × Json)) (k : String) (v : Json) :
    lookupKey (setKey fields k v) k = some v := by
  induction fields with
  | nil => simp [setKey, lookupKey]
  | cons kv rest ih =>
    obtain ⟨k1, v1⟩ := kv
    by_cases h : k1 == k
    · simp [setKey, lookupKey, h]
    · simp only [setKey, h, Bool.false_eq_true, if_false, lookupKey, ih]

/-- C6 (confirmed): for every candidate finding object — a finding
missing any of the required fields line_number, category, description,
severity is dropped (with a warning logged, not retained); a finding
with all required fields present is retained even when its category is
outside the allowed set, which only logs a warning; and the retained
finding's `file` field is set to the relative path of the analyzed
file, overriding any value the model produced. -/
theorem c6_finding_validation (fields : List (String × Json))
    (rest : List Json) (relPath : String) (allowed : List String) :
    (required_keys.all (fun k => hasKey fields k) = false →
      (validateFindings (Json.obj fields :: rest) relPath allowed).1
          = (validateFindings rest relPath allowed).1
        ∧ VEv.droppedMissingKeys (Json.obj fields)
            ∈ (validateFindings (Json.obj fields :: rest) relPath allowed).2)
    ∧ (required_keys.all (fun k => hasKey fields k) = true →
      (validateFindings (Json.obj fields :: rest) relPath allowed).1
          = Json.obj (setKey fields "file" (Json.str relPath))
              :: (validateFindings rest relPath allowed).1
        ∧ (categoryAllowed fields allowed = false →
            VEv.warnedBadCategory (Json.obj fields)
              ∈ (validateFindings (Json.obj fields :: rest) relPath allowed).2)
        ∧ lookupKey (setKey fields "file" (Json.str relPath)) "file"
            = some (Json.str relPath)) := by
  constructor
  · intro hmiss
    constructor
    · simp [validateFindings, hmiss]
    · simp [validateFindings, hmiss]
  · intro hall
    refine ⟨?_, ?_, lookupKey_setKey fields "file" (Json.str relPath)⟩
    · by_cases hcat : categoryAllowed fields allowed
      · simp [validateFindings, hall, hcat]
      · simp [validateFindings, hall, hcat]
    · intro hcat
      simp [validateFindings, hall, hcat]

/-- Concrete check of C6: a finding with all required keys but the
unrecognized category "Bogus" is retained, warned about, and its
`file` field (which the model set to a bogus value) is overridden. -/
theorem c6_finding_validation_witness :
    (validateFindings
        [Json.obj [("line_number", Json.num "1"),
                   ("category", Json.str "Bogus"),
                   ("description", Json.str "d"),
                   ("severity", Json.str "Low"),
                   ("file", Json.str "model-made-this-up")]]
        "src/a.py" ["Readability", "Maintainability"]).1
      = [Json.obj [("line_number", Json.num "1"),
                   ("category", Json.str "Bogus"),
                   ("description", Json.str "d"),
                   ("severity", Json.str "Low"),
                   ("file", Json.str "src/a.py")]]
    ∧ VEv.warnedBadCategory (Json.obj [("line_number", Json.num "1"),
                   ("category", Json.str "Bogus"),
                   ("description", Json.str "d"),
                   ("severity", Json.str "Low"),
                   ("file", Json.str "model-made-this-up")])
        ∈ (validateFindings
        [Json.obj [("line_number", Json.num "1"),
                   ("category", Json.str "Bogus"),
                   ("description", Json.str "d"),
                   ("severity", Json.str "Low"),
                   ("file", Json.str "model-made-this-up")]]
        "src/a.py" ["Readability", "Maintainability"]).2
    ∧ lookupKey (setKey [("line_number", Json.num "1"),
                   ("category", Json.str "Bogus"),
                   ("description", Json.str "d"),
                   ("severity", Json.str "Low"),
                   ("file", Json.str "model-made-this-up")]
          "file" (Json.str "src/a.py")) "file"
        = some (Json.str "src/a.py") := by
  have h := (c6_finding_validation
    [("line_number", Json.num "1"), ("category", Json.str "Bogus"),
     ("description", Json.str "d"), ("severity", Json.str "Low"),
     ("file", Json.str "model-made-this-up")]
    [] "src/a.py" ["Readability", "Maintainability"]).2 rfl
  exact ⟨h.1.trans rfl, h.2.1 rfl, h.2.2⟩

/-! ## Completion client (`llm_interface.generate_completion`) -/

/-- `MAX_RETRIES = 3` of the source. -/
def MAX_RETRIES : Nat := 3

/-- `RETRY_DELAY = 5` seconds of the source. -/
def RETRY_DELAY : Nat := 5

/-- Outcome of one backend call, as seen at the `try` of the loop body:
a response string, an explicit rate-limit signal, a backend `APIError`,
or any other exception. -/
inductive AttemptResult where
  | ok (content : String)
  | rateLimit
  | apiError
  | otherError

/-- Observable actions of the client: one completion attempt (API call)
or one `time.sleep`. -/
inductive CEv where
  | attempt (i : Nat)
  | sleep (seconds : Nat)
deriving DecidableEq

def isTransient : AttemptResult → Bool
  | .ok _ => false
  | _ => true

def countAttempts : List CEv → Nat
  | [] => 0
  | CEv.attempt _ :: rest => countAttempts rest + 1
  | CEv.sleep _ :: rest => countAttempts rest

/-- Every sleep in the trace waits exactly `RETRY_DELAY` seconds. -/
def sleepsFixed : List CEv → Bool
  | [] => true
  | CEv.attempt _ :: rest => sleepsFixed rest
  | CEv.sleep n :: rest => (n == RETRY_DELAY) && sleepsFixed rest

/-- `for attempt in range(MAX_RETRIES)`, with `remaining` counting the
iterations left. A success returns `content.strip()`; a rate limit
always sleeps then continues; an `APIError` or any other exception
returns `None` on the final attempt and otherwise sleeps then
continues; falling out of the loop returns `None`. -/
def attemptLoop (backend : Nat → AttemptResult) :
    Nat → Nat → Option String × List CEv
  | _, 0 => (none, [])
  | attempt, remaining + 1 =>
    match backend attempt with
    | .ok content => (some (pyStripStr content), [CEv.attempt attempt])
    | .rateLimit =>
      let (r, evs) := attemptLoop backend (attempt + 1) remaining
      (r, CEv.attempt attempt :: CEv.sleep RETRY_DELAY :: evs)
    | .apiError =>
      if attempt == MAX_RETRIES - 1 then (none, [CEv.attempt attempt])
      else
        let (r, evs) := attemptLoop backend (attempt + 1) remaining
        (r, CEv.attempt attempt :: CEv.sleep RETRY_DELAY :: evs)
    | .otherError =>
      if attempt == MAX_RETRIES - 1 then (none, [CEv.attempt attempt])
      else
        let (r, evs) := attemptLoop backend (attempt + 1) remaining
        (r, CEv.attempt attempt :: CEv.sleep RETRY_DELAY :: evs)

/-- `generate_completion`: client initialization per backend selector
(`openaiInitOk` / `ollamaInitOk` model whether `get_openai_client` /
`get_ollama_client` returned a client or `None`); a missing client or
an unsupported selector returns `None` before any attempt. -/
def generate_completion (llm_type : String)
    (openaiInitOk ollamaInitOk : Bool)
    (backend : Nat → AttemptResult) : Option String × List CEv :=
  if llm_type = "openai" then
    if openaiInitOk then attemptLoop backend 0 MAX_RETRIES else (none, [])
  else if llm_type = "ollama" then
    if ollamaInitOk then attemptLoop backend 0 MAX_RETRIES else (none, [])
  else (none, [])

lemma attemptLoop_count_le (backend : Nat → AttemptResult) :
    ∀ remaining attempt,
      countAttempts (attemptLoop backend attempt remaining).2 ≤ remaining := by
  intro remaining
  induction remaining with
  | zero => intro a; simp [attemptLoop, countAttempts]
  | succ r ih =>
    intro a
    cases h : backend a with
    | ok s => simp [attemptLoop, h, countAttempts]
    | rateLimit =>
      simp only [attemptLoop, h, countAttempts]
      exact Nat.succ_le_succ (ih (a + 1))
    | apiError =>
      by_cases hl : a == MAX_RETRIES - 1
      · simp [attemptLoop, h, hl, countAttempts]
      · simp only [attemptLoop, h, hl, Bool.false_eq_true, if_false, countAttempts]
        exact Nat.succ_le_succ (ih (a + 1))
    | otherError =>
      by_cases hl : a == MAX_RETRIES - 1
      · simp [attemptLoop, h, hl, countAttempts]
      · simp only [attemptLoop, h, hl, Bool.false_eq_true, if_false, countAttempts]
        exact Nat.succ_le_succ (ih (a + 1))

lemma attemptLoop_sleepsFixed (backend : Nat → AttemptResult) :
    ∀ remaining attempt,
      sleepsFixed (attemptLoop backend attempt remaining).2 = true := by
  intro remaining
  induction remaining with
  | zero => intro a; simp [attemptLoop, sleepsFixed]
  | succ r ih =>
    intro a
    cases h : backend a with
    | ok s => simp [attemptLoop, h, sleepsFixed]
    | rateLimit => simp [attemptLoop, h, sleepsFixed, ih (a + 1)]
    | apiError =>
      by_cases hl : a == MAX_RETRIES - 1
      · simp [attemptLoop, h, hl, sleepsFixed]
      · simp [attemptLoop, h, hl, sleepsFixed, ih (a + 1)]
    | otherError =>
      by_cases hl : a == MAX_RETRIES - 1
      · simp [attemptLoop, h, hl, sleepsFixed]
      · simp [attemptLoop, h, hl, sleepsFixed, ih (a + 1)]

lemma attemptLoop_allTransient (backend : Nat → AttemptResult)
    (h : ∀ i, isTransient (backend i) = true) :
    (attemptLoop backend 0 MAX_RETRIES).1 = none
      ∧ countAttempts (attemptLoop backend 0 MAX_RETRIES).2 = MAX_RETRIES := by
  have h0 := h 0
  have h1 := h 1
  have h2 := h 2
  show (attemptLoop backend 0 (2 + 1)).1 = none
    ∧ countAttempts (attemptLoop backend 0 (2 + 1)).2 = 2 + 1
  cases hb0 : backend 0 <;> rw [hb0] at h0 <;> simp [isTransient] at h0 <;>
    cases hb1 : backend 1 <;> rw [hb1] at h1 <;> simp [isTransient] at h1 <;>
      cases hb2 : backend 2 <;> rw [hb2] at h2 <;> simp [isTransient] at h2 <;>
        refine ⟨?_, ?_⟩ <;>
          simp [attemptLoop, hb0, hb1, hb2, countAttempts, MAX_RETRIES]

lemma generate_completion_cases (llm_type : String)
    (openaiInitOk ollamaInitOk : Bool) (backend : Nat → AttemptResult) :
    generate_completion llm_type openaiInitOk ollamaInitOk backend
        = attemptLoop backend 0 MAX_RETRIES
      ∨ generate_completion llm_type openaiInitOk ollamaInitOk backend
        = (none, []) := by
  unfold generate_completion
  by_cases h1 : llm_type = "openai" <;> by_cases h2 : llm_type = "ollama" <;>
    cases openaiInitOk <;> cases ollamaInitOk <;> simp [h1, h2]

/-- C5 (confirmed): for every backend selector and request, the client
makes at most MAX_RETRIES = 3 attempts; every wait between attempts is
the fixed RETRY_DELAY = 5 seconds; and a backend that fails transiently
on every attempt yields exactly 3 attempts — never more — after which
the failure surfaces as a terminal no-result outcome. -/
theorem c5_retry_ceiling (llm_type : String)
    (openaiInitOk ollamaInitOk : Bool) (backend : Nat → AttemptResult) :
    countAttempts
        (generate_completion llm_type openaiInitOk ollamaInitOk backend).2
      ≤ MAX_RETRIES
    ∧ sleepsFixed
        (generate_completion llm_type openaiInitOk ollamaInitOk backend).2
      = true
    ∧ ((∀ i, isTransient (backend i) = true) →
        llm_type = "openai" → openaiInitOk = true →
        (generate_completion llm_type openaiInitOk ollamaInitOk backend).1
            = none
          ∧ countAttempts
              (generate_completion llm_type openaiInitOk ollamaInitOk
                backend).2 = MAX_RETRIES)
    ∧ ((∀ i, isTransient (backend i) = true) →
        llm_type = "ollama" → ollamaInitOk = true →
        (generate_completion llm_type openaiInitOk ollamaInitOk backend).1
            = none
          ∧ countAttempts
              (generate_completion llm_type openaiInitOk ollamaInitOk
                backend).2 = MAX_RETRIES) := by
  refine ⟨?_, ?_, ?_, ?_⟩
  · rcases generate_completion_cases llm_type openaiInitOk ollamaInitOk backend
      with h | h <;> rw [h]
    · exact attemptLoop_count_le backend MAX_RETRIES 0
    · simp [countAttempts, MAX_RETRIES]
  · rcases generate_completion_cases llm_type openaiInitOk ollamaInitOk backend
      with h | h <;> rw [h]
    · exact attemptLoop_sleepsFixed backend MAX_RETRIES 0
    · simp [sleepsFixed]
  · intro htrans hty hinit
    subst hty; subst hinit
    have := attemptLoop_allTransient backend htrans
    simpa [generate_completion] using this
  · intro htrans hty hinit
    subst hty; subst hinit
    have := attemptLoop_allTransient backend htrans
    simpa [generate_completion] using this

/-- Concrete check of C5: a backend rate-limited on every call makes
exactly three attempts, sleeping 5 seconds after each, and ends with no
result. -/
theorem c5_retry_ceiling_witness :
    (generate_completion "openai" true true (fun _ => AttemptResult.rateLimit)).1
        = none
    ∧ countAttempts
        (generate_completion "openai" true true
          (fun _ => AttemptResult.rateLimit)).2 = MAX_RETRIES
    ∧ (generate_completion "openai" true true
          (fun _ => AttemptResult.rateLimit)).2
        = [CEv.attempt 0, CEv.sleep 5, CEv.attempt 1, CEv.sleep 5,
           CEv.attempt 2, CEv.sleep 5] := by
  have h := (c5_retry_ceiling "openai" true true
    (fun _ => AttemptResult.rateLimit)).2.2.1 (fun i => rfl) rfl rfl
  exact ⟨h.1, h.2, rfl⟩

/-! ## Per-file analysis (`agent.analyze_code_file`)

The RAG retrieval call only shapes the prompt (and
`retrieve_relevant_norms` never raises: it degrades to an empty list),
so prompt assembly is not modelled; the backend's behaviour is the
`backend` oracle. `fileContent` is the result of
`utils.read_file_content` (`None` on unreadable files). -/

def analyze_code_file (fileContent : Option String) (llm_type : String)
    (openaiInitOk ollamaInitOk : Bool) (backend : Nat → AttemptResult)
    (relative_file_path : String) (categoriesConfig : String) :
    List Json × List CEv :=
  match fileContent with
  | none => ([], [])
  | some code_content =>
    if code_content = "" then ([], [])
    else
      let (llm_response_text, cevs) :=
        generate_completion llm_type openaiInitOk ollamaInitOk backend
      match llm_response_text with
      | none => ([], cevs)
      | some txt =>
        if txt = "" then ([], cevs)
        else
          match normalize_parsed (parse_llm_response_to_json txt) with
          | none => ([], cevs)
          | some parsed_findings =>
            ((validateFindings parsed_findings relative_file_path
                (splitCats categoriesConfig)).1, cevs)

/-- C9 (confirmed): when backend client initialization fails, the
completion call returns no result immediately with an empty action
trace — no completion attempts, no retry delays — for either backend
selector (and likewise for an unsupported selector), and the per-file
analysis then yields zero findings for that file. -/
theorem c9_init_short_circuit (ollamaInitOk openaiInitOk : Bool)
    (backend : Nat → AttemptResult) (other : String)
    (fileContent : Option String) (relPath cfg : String) :
    generate_completion "openai" false ollamaInitOk backend = (none, [])
    ∧ generate_completion "ollama" openaiInitOk false backend = (none, [])
    ∧ (other ≠ "openai" → other ≠ "ollama" →
        generate_completion other openaiInitOk ollamaInitOk backend
          = (none, []))
    ∧ analyze_code_file fileContent "openai" false ollamaInitOk backend
        relPath cfg = ([], [])
    ∧ analyze_code_file fileContent "ollama" openaiInitOk false backend
        relPath cfg = ([], []) := by
  have hopenai :
      generate_completion "openai" false ollamaInitOk backend = (none, []) := by
    simp [generate_completion]
  have hollama :
      generate_completion "ollama" openaiInitOk false backend = (none, []) := by
    simp [generate_completion]
  refine ⟨hopenai, hollama, ?_, ?_, ?_⟩
  · intro h1 h2
    simp [generate_completion, h1, h2]
  · cases fileContent with
    | none => rfl
    | some c =>
      by_cases hc : c = "" <;> simp [analyze_code_file, hopenai, hc]
  · cases fileContent with
    | none => rfl
    | some c =>
      by_cases hc : c = "" <;> simp [analyze_code_file, hollama, hc]

/-- Concrete check of C9: with OpenAI client initialization failing,
analyzing a nonempty file makes zero attempts and zero sleeps and
contributes zero findings. -/
theorem c9_init_short_circuit_witness :
    ("x" : String) ≠ "openai"
    ∧ analyze_code_file (some "def f(): pass") "openai" false true
        (fun _ => AttemptResult.rateLimit) "a.py" "Readability" = ([], []) := by
  refine ⟨by decide, ?_⟩
  exact (c9_init_short_circuit true true (fun _ => AttemptResult.rateLimit)
    "x" (some "def f(): pass") "a.py" "Readability").2.2.2.1

/-! ## Scan orchestration (`agent.run_scan`, `app.run_scan_background`)

External calls are oracles in `ScanEnv`:
`cloneResult` is `utils.clone_repo`'s return (`None` on failure);
`ragRaise` models an exception escaping the `RAGProcessor()` constructor;
`ragStoreOk` models `rag_processor.vector_store is not None` (on `False`
the constructor returned normally but without a store — the source only
logs a warning); `codeFiles` is `utils.find_code_files`'s list;
`fileOutcome i` is what `analyze_code_file` does for the i-th file —
either returning a findings list or raising; `cleanupOk` is whether
`shutil.rmtree` succeeds inside `cleanup_repo` (its `OSError` is caught
and logged there); `durationObserved` the rounded elapsed seconds. -/

inductive FileOutcome where
  | ok (findings : List Json)
  | raised (msg : String)

def isOkOutcome : FileOutcome → Bool
  | .ok _ => true
  | .raised _ => false

/-- Observable actions of one `run_scan` execution: each assignment to
the local `results["status"]`, the missing-vector-store warning, the
`cleanup_repo` invocation, and the `finally` duration assignment. -/
inductive Ev where
  | setStatus (s : String)
  | ragWarn
  | cleanupCall (rmOk : Bool)
  | setDuration
deriving DecidableEq

structure ScanEnv where
  cloneResult : Option String
  ragRaise : Option String
  ragStoreOk : Bool
  codeFiles : List String
  fileOutcome : Nat → FileOutcome
  cleanupOk : Bool
  durationObserved : Nat

/-- The local `results` dict of `run_scan`. -/
structure ScanResults where
  status : String
  findings : List Json
  error : Option String
  files_scanned : Nat
  total_files : Nat
  duration_seconds : Nat
  message : Option String

/-- The per-file loop of `run_scan` (lines 181-194): the call to
`analyze_code_file` and the `files_scanned` increment sit inside the
per-file `try`; an exception is logged and the loop continues with the
next file, without incrementing the counter. -/
def analyzeLoop (outcome : Nat → FileOutcome) :
    List String → Nat → List Json × Nat
  | [], _ => ([], 0)
  | _ :: rest, i =>
    let (tailFindings, tailCount) := analyzeLoop outcome rest (i + 1)
    match outcome i with
    | .ok file_findings => (file_findings ++ tailFindings, tailCount + 1)
    | .raised _ => (tailFindings, tailCount)

/-- `agent.run_scan`: try clone / RAG init / enumerate / per-file loop,
except-all setting FAILED with the exception text, finally cleanup of
the clone (only when one was made) and duration assignment. -/
def run_scan (repo_url : String) (env : ScanEnv) : ScanResults × List Ev :=
  let base : ScanResults :=
    { status := "INITIALIZING", findings := [], error := none,
      files_scanned := 0, total_files := 0, duration_seconds := 0,
      message := none }
  let (afterTry, tryEvs, cloned) :=
    match env.cloneResult with
    | none =>
      ({ base with
          status := "FAILED",
          error := some ("Failed to clone repository: " ++ repo_url) },
       [Ev.setStatus "CLONING", Ev.setStatus "FAILED"], false)
    | some _ =>
      match env.ragRaise with
      | some msg =>
        ({ base with
            status := "FAILED",
            error := some msg },
         [Ev.setStatus "CLONING", Ev.setStatus "INITIALIZING_RAG",
          Ev.setStatus "FAILED"], true)
      | none =>
        let warnEvs := if env.ragStoreOk then [] else [Ev.ragWarn]
        if env.codeFiles.isEmpty then
          ({ base with
              status := "COMPLETED",
              message := some "No code files found matching allowed extensions." },
           [Ev.setStatus "CLONING", Ev.setStatus "INITIALIZING_RAG"] ++
             warnEvs ++
             [Ev.setStatus "FINDING_FILES", Ev.setStatus "COMPLETED"], true)
        else
          let (all_findings, scanned) :=
            analyzeLoop env.fileOutcome env.codeFiles 0
          ({ base with
              status := "COMPLETED",
              total_files := env.codeFiles.length,
              findings := all_findings,
              files_scanned := scanned },
           [Ev.setStatus "CLONING", Ev.setStatus "INITIALIZING_RAG"] ++
             warnEvs ++
             [Ev.setStatus "FINDING_FILES", Ev.setStatus "ANALYZING",
              Ev.setStatus "COMPLETED"], true)
  ({ afterTry with
      duration_seconds := env.durationObserved },
   tryEvs ++ (if cloned then [Ev.cleanupCall env.cleanupOk] else [])
     ++ [Ev.setDuration])

/-- One snapshot of the job registry entry (`app.jobs[job_id]`). -/
structure JobRecord where
  status : String
  findings : List Json
  error : Option String
  duration_seconds : Option Nat
  end_time : Option Nat

/-- The successive registry snapshots a polling caller can observe:
the endpoint stores the job in PENDING, `run_scan_background` sets
RUNNING when the thread starts, then performs a single merged update
with `run_scan`'s final results plus `end_time`. -/
def registryTrace (repo_url : String) (env : ScanEnv) (endTime : Nat) :
    List JobRecord :=
  let pending : JobRecord :=
    { status := "PENDING", findings := [], error := none,
      duration_seconds := none, end_time := none }
  let running := { pending with status := "RUNNING" }
  let res := (run_scan repo_url env).1
  let final : JobRecord :=
    { status := res.status, findings := res.findings, error := res.error,
      duration_seconds := some res.duration_seconds,
      end_time := some endTime }
  [pending, running, final]

/-- Statuses assigned to the orchestrator's local result record,
in order. -/
def localStatuses (evs : List Ev) : List String :=
  evs.filterMap fun e =>
    match e with
    | Ev.setStatus s => some s
    | _ => none

def countCleanup : List Ev → Nat
  | [] => 0
  | Ev.cleanupCall _ :: rest => countCleanup rest + 1
  | _ :: rest => countCleanup rest

/-- Findings contributed by files `i, i+1, ..., i+n-1` whose analysis
returned normally, in enumeration order. -/
def okFindingsFrom (outcome : Nat → FileOutcome) : Nat → Nat → List Json
  | _, 0 => []
  | i, n + 1 =>
    (match outcome i with | .ok l => l | .raised _ => []) ++
      okFindingsFrom outcome (i + 1) n

/-- Number of files among `i, ..., i+n-1` whose analysis returned
normally. -/
def okCountFrom (outcome : Nat → FileOutcome) : Nat → Nat → Nat
  | _, 0 => 0
  | i, n + 1 =>
    (if isOkOutcome (outcome i) then 1 else 0) + okCountFrom outcome (i + 1) n

lemma analyzeLoop_spec (outcome : Nat → FileOutcome) :
    ∀ (files : List String) (i : Nat),
      analyzeLoop outcome files i
        = (okFindingsFrom outcome i files.length,
           okCountFrom outcome i files.length) := by
  intro files
  induction files with
  | nil => intro i; rfl
  | cons f rest ih =>
    intro i
    show (let (tailFindings, tailCount) := analyzeLoop outcome rest (i + 1)
          match outcome i with
          | .ok file_findings => (file_findings ++ tailFindings, tailCount + 1)
          | .raised _ => (tailFindings, tailCount))
        = _
    rw [ih (i + 1)]
    cases h : outcome i with
    | ok l => simp [okFindingsFrom, okCountFrom, h, isOkOutcome, Nat.add_comm]
    | raised m => simp [okFindingsFrom, okCountFrom, h, isOkOutcome]

lemma okCountFrom_all_ok (outcome : Nat → FileOutcome) :
    ∀ (n i : Nat), (∀ j, j < n → isOkOutcome (outcome (i + j)) = true) →
      okCountFrom outcome i n = n := by
  intro n
  induction n with
  | zero => intro i _; rfl
  | succ m ih =>
    intro i h
    have h0 : isOkOutcome (outcome i) = true := by
      have := h 0 (Nat.succ_pos m)
      simpa using this
    have hrest : okCountFrom outcome (i + 1) m = m := by
      apply ih
      intro j hj
      have := h (j + 1) (Nat.succ_lt_succ hj)
      simpa [Nat.add_assoc, Nat.add_comm 1 j] using this
    simp [okCountFrom, h0, hrest, Nat.add_comm]

/-! The four exit shapes of `run_scan`, one lemma each. -/

lemma run_scan_clone_failed (repo_url : String) (env : ScanEnv)
    (h : env.cloneResult = none) :
    run_scan repo_url env
      = ({ status := "FAILED", findings := [],
           error := some ("Failed to clone repository: " ++ repo_url),
           files_scanned := 0, total_files := 0,
           duration_seconds := env.durationObserved, message := none },
         [Ev.setStatus "CLONING", Ev.setStatus "FAILED",
          Ev.setDuration]) := by
  simp [run_scan, h]

lemma run_scan_rag_raised (repo_url : String) (env : ScanEnv)
    (p msg : String) (h : env.cloneResult = some p)
    (hr : env.ragRaise = some msg) :
    run_scan repo_url env
      = ({ status := "FAILED", findings := [], error := some msg,
           files_scanned := 0, total_files := 0,
           duration_seconds := env.durationObserved, message := none },
         [Ev.setStatus "CLONING", Ev.setStatus "INITIALIZING_RAG",
          Ev.setStatus "FAILED", Ev.cleanupCall env.cleanupOk,
          Ev.setDuration]) := by
  simp [run_scan, h, hr]

lemma run_scan_no_files (repo_url : String) (env : ScanEnv) (p : String)
    (h : env.cloneResult = some p) (hr : env.ragRaise = none)
    (hf : env.codeFiles = []) :
    run_scan repo_url env
      = ({ status := "COMPLETED", findings := [], error := none,
           files_scanned := 0, total_files := 0,
           duration_seconds := env.durationObserved,
           message := some "No code files found matching allowed extensions." },
         [Ev.setStatus "CLONING", Ev.setStatus "INITIALIZING_RAG"] ++
           (if env.ragStoreOk then [] else [Ev.ragWarn]) ++
           [Ev.setStatus "FINDING_FILES", Ev.setStatus "COMPLETED",
            Ev.cleanupCall env.cleanupOk, Ev.setDuration]) := by
  simp [run_scan, h, hr, hf]

lemma run_scan_analyzing (repo_url : String) (env : ScanEnv) (p : String)
    (h : env.cloneResult = some p) (hr : env.ragRaise = none)
    (hf : env.codeFiles ≠ []) :
    run_scan repo_url env
      = ({ status := "COMPLETED",
           findings := okFindingsFrom env.fileOutcome 0 env.codeFiles.length,
           error := none,
           files_scanned := okCountFrom env.fileOutcome 0 env.codeFiles.length,
           total_files := env.codeFiles.length,
           duration_seconds := env.durationObserved, message := none },
         [Ev.setStatus "CLONING", Ev.setStatus "INITIALIZING_RAG"] ++
           (if env.ragStoreOk then [] else [Ev.ragWarn]) ++
           [Ev.setStatus "FINDING_FILES", Ev.setStatus "ANALYZING",
            Ev.setStatus "COMPLETED", Ev.cleanupCall env.cleanupOk,
            Ev.setDuration]) := by
  have hne : env.codeFiles.isEmpty = false := by
    cases hc : env.codeFiles with
    | nil => exact absurd hc hf
    | cons a rest => rfl
  simp [run_scan, h, hr, hne, analyzeLoop_spec]

/-! ## Claim theorems about the orchestrator -/

/-- C1 (amended, proved): when the job reaches the analyzing phase, a
per-file failure is caught at the file-processing boundary: it
contributes zero findings for that file, does not transition the job to
FAILED, and analysis continues with the next file in enumeration order —
but it does NOT increment `files_scanned`, because the increment sits
inside the per-file `try` after the analysis call; only files whose
analysis returns normally are counted. -/
theorem c1_file_failure_containment (repo_url : String) (env : ScanEnv)
    (p : String) (h : env.cloneResult = some p) (hr : env.ragRaise = none)
    (hf : env.codeFiles ≠ []) :
    (run_scan repo_url env).1.status = "COMPLETED"
    ∧ (run_scan repo_url env).1.error = none
    ∧ (run_scan repo_url env).1.findings
        = okFindingsFrom env.fileOutcome 0 env.codeFiles.length
    ∧ (run_scan repo_url env).1.files_scanned
        = okCountFrom env.fileOutcome 0 env.codeFiles.length := by
  rw [run_scan_analyzing repo_url env p h hr hf]
  exact ⟨rfl, rfl, rfl, rfl⟩

/-- A sample validated finding used by concrete scan scenarios. -/
def sampleFinding : Json :=
  Json.obj [("line_number", Json.num "3"),
            ("category", Json.str "Readability"),
            ("description", Json.str "x is too generic"),
            ("severity", Json.str "Low"),
            ("file", Json.str "b.py")]

def envOneRaisingFile : ScanEnv :=
  { cloneResult := some "cloned_repos/job1", ragRaise := none,
    ragStoreOk := true, codeFiles := ["a.py"],
    fileOutcome := fun _ => FileOutcome.raised "boom",
    cleanupOk := true, durationObserved := 2 }

/-- C1 counterexample: a job with one enumerated file whose analysis
raises ends COMPLETED with zero findings, but `files_scanned` is 0 —
the claim's "still increments the job's filesScanned counter" fails
(it would require the value 1). -/
theorem c1_counterexample :
    (run_scan "https://r" envOneRaisingFile).1.files_scanned = 0
    ∧ ¬ (run_scan "https://r" envOneRaisingFile).1.files_scanned = 1
    ∧ (run_scan "https://r" envOneRaisingFile).1.status = "COMPLETED"
    ∧ (run_scan "https://r" envOneRaisingFile).1.findings = [] := by
  exact ⟨rfl, by decide, rfl, rfl⟩

def envRaiseThenOk : ScanEnv :=
  { cloneResult := some "cloned_repos/job2", ragRaise := none,
    ragStoreOk := true, codeFiles := ["a.py", "b.py"],
    fileOutcome := fun i =>
      if i = 0 then FileOutcome.raised "boom"
      else FileOutcome.ok [sampleFinding],
    cleanupOk := true, durationObserved := 2 }

/-- Concrete check of the amended C1: with the first file raising and
the second succeeding, the job completes, keeps the second file's
finding, and counts one file scanned. -/
theorem c1_file_failure_containment_witness :
    (run_scan "https://r" envRaiseThenOk).1.status = "COMPLETED"
    ∧ (run_scan "https://r" envRaiseThenOk).1.findings = [sampleFinding]
    ∧ (run_scan "https://r" envRaiseThenOk).1.files_scanned = 1 := by
  have h := c1_file_failure_containment "https://r" envRaiseThenOk
    "cloned_repos/job2" rfl rfl (by decide)
  exact ⟨h.1, h.2.2.1.trans rfl, h.2.2.2.trans rfl⟩

/-- C2 (amended, proved): the orchestrator's local status record
progresses in order CLONING, INITIALIZING_RAG, FINDING_FILES, then
ANALYZING (skipped when enumeration yields zero files) and exactly one
terminal status — COMPLETED, or FAILED directly after the stage that
raised — but only PENDING, RUNNING and the single final snapshot are
ever written to the shared job registry: the intermediate statuses stay
in the orchestrator's local record and are not observable by polling. -/
theorem c2_status_progression (repo_url : String) (env : ScanEnv)
    (endTime : Nat) :
    localStatuses (run_scan repo_url env).2 ∈
      [["CLONING", "FAILED"],
       ["CLONING", "INITIALIZING_RAG", "FAILED"],
       ["CLONING", "INITIALIZING_RAG", "FINDING_FILES", "COMPLETED"],
       ["CLONING", "INITIALIZING_RAG", "FINDING_FILES", "ANALYZING",
        "COMPLETED"]]
    ∧ (registryTrace repo_url env endTime).map JobRecord.status
        = ["PENDING", "RUNNING", (run_scan repo_url env).1.status] := by
  constructor
  · cases hc : env.cloneResult with
    | none =>
      rw [run_scan_clone_failed repo_url env hc]
      simp [localStatuses]
    | some p =>
      cases hr : env.ragRaise with
      | some msg =>
        rw [run_scan_rag_raised repo_url env p msg hc hr]
        simp [localStatuses]
      | none =>
        cases hcf : env.codeFiles with
        | nil =>
          rw [run_scan_no_files repo_url env p hc hr hcf]
          by_cases hs : env.ragStoreOk <;> simp [localStatuses, hs]
        | cons a rest =>
          rw [run_scan_analyzing repo_url env p hc hr (by simp [hcf])]
          by_cases hs : env.ragStoreOk <;> simp [localStatuses, hs]
  · rfl

def envHappySmall : ScanEnv :=
  { cloneResult := some "cloned_repos/job3", ragRaise := none,
    ragStoreOk := true, codeFiles := ["a.py"],
    fileOutcome := fun _ => FileOutcome.ok [],
    cleanupOk := true, durationObserved := 1 }

/-- C2 counterexample: on a successful job the registry snapshots are
exactly PENDING, RUNNING, COMPLETED — status CLONING is assigned
locally during the run but never written to the registry, so a polling
caller cannot observe the intermediate statuses, contrary to the
claim. -/
theorem c2_counterexample :
    (registryTrace "https://r" envHappySmall 9).map JobRecord.status
        = ["PENDING", "RUNNING", "COMPLETED"]
    ∧ "CLONING" ∉ (registryTrace "https://r" envHappySmall 9).map
        JobRecord.status
    ∧ "CLONING" ∈ localStatuses (run_scan "https://r" envHappySmall).2 := by
  exact ⟨rfl, by decide, by decide⟩

/-- C3 (amended, proved): a clone failure moves the job directly to
FAILED with the raised message (the synthesized "Failed to clone
repository: url" text) in the error field, and an exception escaping
retrieval-processor construction is likewise fatal with its message
captured; but mere retrieval-initialization failure — the processor
returning without a usable vector store — is NOT fatal: the job logs a
warning and completes, and file enumeration cannot fail the job (an
empty enumeration completes it). -/
theorem c3_stage_failures (repo_url : String) (env : ScanEnv)
    (p m : String) :
    (env.cloneResult = none →
      (run_scan repo_url env).1.status = "FAILED"
      ∧ (run_scan repo_url env).1.error
          = some ("Failed to clone repository: " ++ repo_url))
    ∧ (env.cloneResult = some p → env.ragRaise = some m →
      (run_scan repo_url env).1.status = "FAILED"
      ∧ (run_scan repo_url env).1.error = some m)
    ∧ (env.cloneResult = some p → env.ragRaise = none →
      (run_scan repo_url env).1.status = "COMPLETED"
      ∧ (run_scan repo_url env).1.error = none) := by
  refine ⟨?_, ?_, ?_⟩
  · intro h
    rw [run_scan_clone_failed repo_url env h]
    exact ⟨rfl, rfl⟩
  · intro h hr
    rw [run_scan_rag_raised repo_url env p m h hr]
    exact ⟨rfl, rfl⟩
  · intro h hr
    cases hcf : env.codeFiles with
    | nil =>
      rw [run_scan_no_files repo_url env p h hr hcf]
      exact ⟨rfl, rfl⟩
    | cons a rest =>
      rw [run_scan_analyzing repo_url env p h hr (by simp [hcf])]
      exact ⟨rfl, rfl⟩

def envStoreUnavailable : ScanEnv :=
  { cloneResult := some "cloned_repos/job4", ragRaise := none,
    ragStoreOk := false, codeFiles := ["a.py"],
    fileOutcome := fun _ => FileOutcome.ok [],
    cleanupOk := true, durationObserved := 1 }

/-- C3 counterexample: retrieval initialization fails (no vector
store), yet the job does not move to FAILED — it logs the warning and
completes, so "each stage's external call must succeed or the job moves
directly to FAILED" is false for the retrieval-initialization stage. -/
theorem c3_counterexample :
    (run_scan "https://r" envStoreUnavailable).1.status = "COMPLETED"
    ∧ (run_scan "https://r" envStoreUnavailable).1.error = none
    ∧ Ev.ragWarn ∈ (run_scan "https://r" envStoreUnavailable).2 := by
  exact ⟨rfl, rfl, by decide⟩

def envCloneFails : ScanEnv :=
  { cloneResult := none, ragRaise := none, ragStoreOk := true,
    codeFiles := [], fileOutcome := fun _ => FileOutcome.ok [],
    cleanupOk := true, durationObserved := 0 }

/-- Concrete check of the amended C3: a failed clone yields FAILED with
the synthesized clone-failure message in the error field. -/
theorem c3_stage_failures_witness :
    (run_scan "https://repo.git" envCloneFails).1.status = "FAILED"
    ∧ (run_scan "https://repo.git" envCloneFails).1.error
        = some "Failed to clone repository: https://repo.git" := by
  have h := (c3_stage_failures "https://repo.git" envCloneFails "p" "m").1 rfl
  exact ⟨h.1, h.2.trans (by decide)⟩

lemma run_scan_cleanup_oblivious (repo_url : String) (env : ScanEnv)
    (b : Bool) :
    (run_scan repo_url { env with cleanupOk := b }).1
      = (run_scan repo_url env).1 := by
  rcases env with ⟨cr, rr, rs, cf, fo, co, d⟩
  cases cr <;> cases rr <;> cases cf <;> simp [run_scan]

/-- C7 (confirmed): on every exit path — COMPLETED, FAILED, or the
unexpected-fault path — the `finally` block runs exactly one cleanup of
the cloned working copy whenever a clone was made (and none when the
clone itself failed, in which case no working copy exists: `clone_repo`
already removed its partial directory); a cleanup failure is logged
inside `cleanup_repo` and never alters the job's outcome (so it cannot
mask the original error); and `duration_seconds` is recorded as the
final action of the same finalization on every exit path, with the
single merged registry write carrying both the duration and the end
time. -/
theorem c7_cleanup_finalization (repo_url : String) (env : ScanEnv)
    (b : Bool) (endTime : Nat) :
    countCleanup (run_scan repo_url env).2
        = (if env.cloneResult.isSome then 1 else 0)
    ∧ (run_scan repo_url { env with cleanupOk := b }).1
        = (run_scan repo_url env).1
    ∧ (run_scan repo_url env).2.getLast? = some Ev.setDuration
    ∧ (run_scan repo_url env).1.duration_seconds = env.durationObserved
    ∧ (registryTrace repo_url env endTime).getLast?
        = some { status := (run_scan repo_url env).1.status,
                 findings := (run_scan repo_url env).1.findings,
                 error := (run_scan repo_url env).1.error,
                 duration_seconds :=
                   some (run_scan repo_url env).1.duration_seconds,
                 end_time := some endTime } := by
  refine ⟨?_, ?_, ?_, ?_, rfl⟩
  · cases hc : env.cloneResult with
    | none =>
      rw [run_scan_clone_failed repo_url env hc]
      simp [countCleanup]
    | some p =>
      cases hr : env.ragRaise with
      | some msg =>
        rw [run_scan_rag_raised repo_url env p msg hc hr]
        simp [countCleanup]
      | none =>
        cases hcf : env.codeFiles with
        | nil =>
          rw [run_scan_no_files repo_url env p hc hr hcf]
          by_cases hs : env.ragStoreOk <;> simp [countCleanup, hs]
        | cons a rest =>
          rw [run_scan_analyzing repo_url env p hc hr (by simp [hcf])]
          by_cases hs : env.ragStoreOk <;> simp [countCleanup, hs]
  · exact run_scan_cleanup_oblivious repo_url env b
  · cases hc : env.cloneResult with
    | none =>
      rw [run_scan_clone_failed repo_url env hc]
      rfl
    | some p =>
      cases hr : env.ragRaise with
      | some msg =>
        rw [run_scan_rag_raised repo_url env p msg hc hr]
        rfl
      | none =>
        cases hcf : env.codeFiles with
        | nil =>
          rw [run_scan_no_files repo_url env p hc hr hcf]
          by_cases hs : env.ragStoreOk <;> simp [hs]
        | cons a rest =>
          rw [run_scan_analyzing repo_url env p hc hr (by simp [hcf])]
          by_cases hs : env.ragStoreOk <;> simp [hs]
  · cases hc : env.cloneResult with
    | none => rw [run_scan_clone_failed repo_url env hc]
    | some p =>
      cases hr : env.ragRaise with
      | some msg => rw [run_scan_rag_raised repo_url env p msg hc hr]
      | none =>
        cases hcf : env.codeFiles with
        | nil => rw [run_scan_no_files repo_url env p hc hr hcf]
        | cons a rest =>
          rw [run_scan_analyzing repo_url env p hc hr (by simp [hcf])]

/-- C8 (confirmed): when file enumeration yields zero files the job
moves straight to COMPLETED — a valid non-error outcome — with empty
findings, zero files scanned, the descriptive message attached, and no
error. -/
theorem c8_zero_files_completed (repo_url : String) (env : ScanEnv)
    (p : String) (h : env.cloneResult = some p) (hr : env.ragRaise = none)
    (hf : env.codeFiles = []) :
    (run_scan repo_url env).1.status = "COMPLETED"
    ∧ (run_scan repo_url env).1.findings = []
    ∧ (run_scan repo_url env).1.files_scanned = 0
    ∧ (run_scan repo_url env).1.message
        = some "No code files found matching allowed extensions."
    ∧ (run_scan repo_url env).1.error = none := by
  rw [run_scan_no_files repo_url env p h hr hf]
  exact ⟨rfl, rfl, rfl, rfl, rfl⟩

def envNoFiles : ScanEnv :=
  { cloneResult := some "cloned_repos/job5", ragRaise := none,
    ragStoreOk := true, codeFiles := [],
    fileOutcome := fun _ => FileOutcome.ok [],
    cleanupOk := true, durationObserved := 1 }

/-- Concrete check of C8 on a clone with no matching files. -/
theorem c8_zero_files_completed_witness :
    (run_scan "https://r" envNoFiles).1.status = "COMPLETED"
    ∧ (run_scan "https://r" envNoFiles).1.findings = []
    ∧ (run_scan "https://r" envNoFiles).1.files_scanned = 0
    ∧ (run_scan "https://r" envNoFiles).1.message
        = some "No code files found matching allowed extensions." := by
  have h := c8_zero_files_completed "https://r" envNoFiles
    "cloned_repos/job5" rfl rfl rfl
  exact ⟨h.1, h.2.1, h.2.2.1, h.2.2.2.1⟩

/-- C10 (confirmed): a file whose content is unreadable (read returned
`None`) or empty makes the per-file analysis return an empty findings
list without raising; in the scan loop such files — like every file
whose analysis returns normally — are counted by `files_scanned`, so
when every enumerated file returns normally the counter equals the
number of enumerated files. -/
theorem c10_unreadable_counted (llm_type : String) (oa ol : Bool)
    (backend : Nat → AttemptResult) (relPath cfg : String)
    (repo_url : String) (env : ScanEnv) (p : String) :
    analyze_code_file none llm_type oa ol backend relPath cfg = ([], [])
    ∧ analyze_code_file (some "") llm_type oa ol backend relPath cfg
        = ([], [])
    ∧ (env.cloneResult = some p → env.ragRaise = none →
        env.codeFiles ≠ [] →
        (∀ j, j < env.codeFiles.length →
          isOkOutcome (env.fileOutcome j) = true) →
        (run_scan repo_url env).1.files_scanned = env.codeFiles.length
        ∧ (run_scan repo_url env).1.status = "COMPLETED") := by
  refine ⟨rfl, rfl, ?_⟩
  intro h hr hf hok
  rw [run_scan_analyzing repo_url env p h hr hf]
  refine ⟨?_, rfl⟩
  apply okCountFrom_all_ok env.fileOutcome env.codeFiles.length 0
  intro j hj
  simpa using hok j hj

def envUnreadableFile : ScanEnv :=
  { cloneResult := some "cloned_repos/job6", ragRaise := none,
    ragStoreOk := true, codeFiles := ["mystery.py"],
    fileOutcome := fun _ => FileOutcome.ok [],
    cleanupOk := true, durationObserved := 1 }

/-- Concrete check of C10: one unreadable file (its analysis returned
the empty list) still counts toward `files_scanned`, and analyzing an
unreadable file produces no findings and no backend calls. -/
theorem c10_unreadable_counted_witness :
    analyze_code_file none "openai" true true
        (fun _ => AttemptResult.ok "[]") "mystery.py" "Readability"
      = ([], [])
    ∧ (run_scan "https://r" envUnreadableFile).1.files_scanned = 1
    ∧ (run_scan "https://r" envUnreadableFile).1.status = "COMPLETED" := by
  have h := c10_unreadable_counted "openai" true true
    (fun _ => AttemptResult.ok "[]") "mystery.py" "Readability"
    "https://r" envUnreadableFile "cloned_repos/job6"
  have h3 := h.2.2 rfl rfl (by decide) (fun j _ => rfl)
  exact ⟨h.1, h3.1.trans rfl, h3.2⟩

/-! Differential checks of the fence-extraction model against the
behaviour of Python `re.search` with the source's pattern. -/

example : (searchFenced "prose ```json\n[1]\n``` post".data).map
    (fun c => String.mk (pyStrip c)) = some "[1]" := rfl
example : (searchFenced "```JSON [1]```".data).map
    (fun c => String.mk (pyStrip c)) = some "[1]" := rfl
example : (searchFenced "```python\nx=1\n```".data).map
    (fun c => String.mk (pyStrip c)) = some "python\nx=1" := rfl
example : (searchFenced "``````".data).map
    (fun c => String.mk (pyStrip c)) = some "" := rfl
example : (searchFenced "````".data).map
    (fun c => String.mk (pyStrip c)) = none := rfl
example : (searchFenced "``` ```json\n[1]\n```".data).map
    (fun c => String.mk (pyStrip c)) = some "" := rfl
example : (searchFenced "```jsonx```".data).map
    (fun c => String.mk (pyStrip c)) = some "x" := rfl
example : (searchFenced "```json```".data).map
    (fun c => String.mk (pyStrip c)) = some "" := rfl
example : (searchFenced "pre``` a ``` mid ``` b ```".data).map
    (fun c => String.mk (pyStrip c)) = some "a" := rfl
example : (searchFenced "```[1] ```".data).map
    (fun c => String.mk (pyStrip c)) = some "[1]" := rfl
example : (searchFenced "``` json [1]```".data).map
    (fun c => String.mk (pyStrip c)) = some "json [1]" := rfl
example : (searchFenced "```json\t\n [2] \t```".data).map
    (fun c => String.mk (pyStrip c)) = some "[2]" := rfl
example : (searchFenced "tick``` unclosed".data).map
    (fun c => String.mk (pyStrip c)) = none := rfl
example : (searchFenced "````json [3]````".data).map
    (fun c => String.mk (pyStrip c)) = some "`json [3]" := rfl
example : (searchFenced "```js\n[4]\n```".data).map
    (fun c => String.mk (pyStrip c)) = some "js\n[4]" := rfl
example : (searchFenced "a\x7bb[c".data).map
    (fun c => String.mk (pyStrip c)) = none := rfl
